import Mathlib

/-!
# Verification of the ts-smart-mocker response-identity and mock-resolution engine

Shallow embedding of `src/ts-mocker/api-mocker.ts` (the `ApiMocker` class),
`src/ts-mocker/storage.ts` and `src/ts-mocker/types.ts`.

Modelling decisions:
* JavaScript values appearing as payloads / request bodies are modelled by the
  inductive `JsValue`; `JSON.stringify` is modelled by `jsStringify` (no
  indentation, the form used inside `smartFetch`'s template literals).
* Strings are treated at the level of Unicode code points; the source's
  `charCodeAt` works on UTF-16 units, which agree on the Basic Multilingual
  Plane (all inputs of interest).
* `Error.stack` values are environment dependent (they embed file paths and
  line numbers) and are modelled as `null`.
* Asynchronous effects are made explicit: `smartFetch` takes as an argument the
  outcome `FetchOutcome` the live-call capability would produce and the current
  timestamp string, and returns next state plus a trace of external effects
  (`FetchEffect`): live-call invocations and persistence-adapter operations.
* A thrown value is an `Except.error`; a returned value is an `Except.ok`.
-/

set_option autoImplicit false

/-- A JSON-serializable JavaScript value (the payloads this library moves around). -/
inductive JsValue where
  | null : JsValue
  | bool : Bool → JsValue
  | num : Int → JsValue
  | str : String → JsValue
  | arr : List JsValue → JsValue
  | obj : List (String × JsValue) → JsValue
  deriving Repr, BEq

/-- Four-digit lowercase hexadecimal rendering used by `JSON.stringify` for
control characters (`\u00XX`). -/
def hex4 (n : Nat) : String :=
  let digit (d : Nat) : Char :=
    if d < 10 then Char.ofNat (48 + d) else Char.ofNat (87 + d)
  String.mk [digit (n / 4096 % 16), digit (n / 256 % 16), digit (n / 16 % 16), digit (n % 16)]

/-- Escape one character the way `JSON.stringify` escapes characters inside
string literals. -/
def jsEscapeChar (c : Char) : String :=
  if c = '"' then "\\\""
  else if c = '\\' then "\\\\"
  else if c = '\x08' then "\\b"
  else if c = '\x0c' then "\\f"
  else if c = '\n' then "\\n"
  else if c = '\r' then "\\r"
  else if c = '\t' then "\\t"
  else if c.toNat < 32 then "\\u" ++ hex4 c.toNat
  else String.singleton c

/-- `JSON.stringify` of a string value (quoted, escaped). -/
def jsStringifyString (s : String) : String :=
  "\"" ++ String.join (s.data.map jsEscapeChar) ++ "\""

mutual
/-- `JSON.stringify(v)` with no indentation argument. -/
def jsStringify : JsValue → String
  | JsValue.null => "null"
  | JsValue.bool true => "true"
  | JsValue.bool false => "false"
  | JsValue.num n => toString n
  | JsValue.str s => jsStringifyString s
  | JsValue.arr xs => "[" ++ jsStringifyList xs ++ "]"
  | JsValue.obj fs => "\x7b" ++ jsStringifyFields fs ++ "\x7d"

/-- Comma-separated rendering of array elements. -/
def jsStringifyList : List JsValue → String
  | [] => ""
  | [x] => jsStringify x
  | x :: xs => jsStringify x ++ "," ++ jsStringifyList xs

/-- Comma-separated rendering of object fields. -/
def jsStringifyFields : List (String × JsValue) → String
  | [] => ""
  | [(k, v)] => jsStringifyString k ++ ":" ++ jsStringify v
  | (k, v) :: fs => jsStringifyString k ++ ":" ++ jsStringify v ++ "," ++ jsStringifyFields fs
end

/-- JavaScript truthiness on our value type (`undefined` is `Option.none` at
use sites). -/
def jsFalsy : JsValue → Bool
  | JsValue.null => true
  | JsValue.bool b => !b
  | JsValue.num n => n == 0
  | JsValue.str s => s == ""
  | _ => false

/-- Wrap an integer to JavaScript's signed 32-bit range (the effect of `| 0`,
`& x`, and `<<` result coercion). -/
def toInt32 (n : Int) : Int :=
  (n + 2 ^ 31) % 2 ^ 32 - 2 ^ 31

/-- One loop iteration of the source's `hashCode`:
`hash = ((hash << 5) - hash) + char; hash = hash & hash;`. -/
def hashStep (hash : Int) (c : Char) : Int :=
  toInt32 (toInt32 (hash * 32) - hash + c.toNat)

/-- `hashCode(str)`: the 32-bit string hash from `api-mocker.ts`. -/
def hashCode (s : String) : Int :=
  s.data.foldl hashStep 0

/-- `requestBody || {}`: a missing or falsy body is replaced by the empty
object before stringification. -/
def bodyForKey (b : Option JsValue) : JsValue :=
  match b with
  | none => JsValue.obj []
  | some v => if jsFalsy v then JsValue.obj [] else v

/-- The fingerprint template
`` `${url}_${method}_${hashCode(JSON.stringify(requestBody || {}))}` ``
shared by `getStoredResponse` and `smartFetch`. -/
def storageKey (url method : String) (body : Option JsValue) : String :=
  url ++ "_" ++ method ++ "_" ++ toString (hashCode (jsStringify (bodyForKey body)))

/-- `s || default` on strings (empty string is falsy). -/
def jsOrString (s : Option String) (d : String) : String :=
  match s with
  | none => d
  | some v => if v = "" then d else v

/-- The `request` field of a stored record (`types.ts`, `StoredResponse.request`). -/
structure StoredRequest where
  url : String
  method : String
  body : Option JsValue
  headers : Option (List (String × String))
  deriving Repr, BEq

/-- `StoredResponse` from `types.ts`: a persisted outcome plus metadata.
The TypeScript type admits `undefined` headers, but every record written by
`smartFetch` carries a concrete record (possibly empty), so `headers` is a
plain list here. -/
structure StoredResponse where
  response : JsValue
  timestamp : String
  headers : List (String × String)
  request : StoredRequest
  deriving Repr, BEq

/-- `MockConfig` from `types.ts` (the fields `addMock` consults and fills). -/
structure MockConfig where
  endpoint : String
  method : String
  response : JsValue
  delay : Option Nat
  deriving Repr, BEq

/-- The resolved `this.options` after the constructor's merge with environment
defaults: every field present. -/
structure ApiMockerOptions where
  storeRealResponses : Bool
  storeErrorResponses : Bool
  defaultDelay : Nat
  isMocking : Bool
  deriving Repr, BEq

/-- The constructor's explicit-options argument (all fields optional). -/
structure ExplicitOptions where
  storeRealResponses : Option Bool
  storeErrorResponses : Option Bool
  defaultDelay : Option Nat
  isMocking : Option Bool
  deriving Repr

/-- The constructor's option merge: `options.x ?? env.x` for each field. -/
def resolveOptions (options : ExplicitOptions) (env : ApiMockerOptions) : ApiMockerOptions :=
  { storeRealResponses := options.storeRealResponses.getD env.storeRealResponses
    storeErrorResponses := options.storeErrorResponses.getD env.storeErrorResponses
    defaultDelay := options.defaultDelay.getD env.defaultDelay
    isMocking := options.isMocking.getD env.isMocking }

/-- `this.state`: mocking flag, static mock registry, and the in-memory
response cache (a JavaScript `Map`, modelled as an insertion-ordered
association list). -/
structure MockerState where
  isMocking : Bool
  mocks : List MockConfig
  storedResponses : List (String × StoredResponse)
  deriving Repr, BEq

/-- `Map.prototype.get`. -/
def mapGet (m : List (String × StoredResponse)) (k : String) : Option StoredResponse :=
  match m with
  | [] => none
  | (k', v) :: rest => if k' = k then some v else mapGet rest k

/-- `Map.prototype.set`: replaces in place when the key is present, otherwise
appends (JavaScript `Map` preserves insertion order). -/
def mapSet (m : List (String × StoredResponse)) (k : String) (v : StoredResponse) :
    List (String × StoredResponse) :=
  match m with
  | [] => [(k, v)]
  | (k', v') :: rest =>
      if k' = k then (k, v) :: rest else (k', v') :: mapSet rest k v

/-- Observable external effects of one engine operation, in order of
occurrence: an invocation of the live-call capability, or a persistence
adapter operation (`saveResponses` with the full snapshot, or
`clearResponses`). -/
inductive FetchEffect where
  | liveCall : String → String → FetchEffect
  | persistSave : List (String × StoredResponse) → FetchEffect
  | persistClear : FetchEffect
  deriving Repr, BEq

/-- Replay a trace of effects against the durable store's contents
(`saveResponses` overwrites wholesale, `clearResponses` empties; a live call
does not touch the store). -/
def applyEffects (store : List (String × StoredResponse)) :
    List FetchEffect → List (String × StoredResponse)
  | [] => store
  | FetchEffect.liveCall _ _ :: rest => applyEffects store rest
  | FetchEffect.persistSave m :: rest => applyEffects m rest
  | FetchEffect.persistClear :: rest => applyEffects [] rest

namespace ApiMocker

/-- `getStoredResponse(url, method, requestBody?)`. -/
def getStoredResponse (st : MockerState) (url method : String) (requestBody : Option JsValue) :
    Option StoredResponse :=
  mapGet st.storedResponses (storageKey url method requestBody)

/-- `saveToStorage()`: write-through of the whole in-memory mapping, gated on
`storeRealResponses`.  Returns the adapter operations performed. -/
def saveToStorage (options : ApiMockerOptions) (storedResponses : List (String × StoredResponse)) :
    List FetchEffect :=
  if options.storeRealResponses then [FetchEffect.persistSave storedResponses] else []

/-- `addMock(config)`: appends unless an entry with the same
`(endpoint, method)` pair already exists; fills `delay` from
`config.delay ?? this.options.defaultDelay`. -/
def addMock (options : ApiMockerOptions) (mocks : List MockConfig) (config : MockConfig) :
    List MockConfig :=
  let exists_ := mocks.any fun m => m.endpoint == config.endpoint && m.method == config.method
  if exists_ then mocks
  else mocks ++ [{ config with delay := some (config.delay.getD options.defaultDelay) }]

/-- `clearStoredResponses()`: replaces the in-memory map with an empty one,
then calls `saveToStorage()`.  Returns new state and the adapter operations
performed. -/
def clearStoredResponses (options : ApiMockerOptions) (st : MockerState) :
    MockerState × List FetchEffect :=
  let st2 := { st with storedResponses := ([] : List (String × StoredResponse)) }
  (st2, saveToStorage options st2.storedResponses)

/-- What invoking `clone()` on a value produced by `smartFetch` does. -/
inductive CloneOutcome where
  /-- Evaluating the closure throws (its body reads a variable that is never
  initialized on this path). -/
  | thrown : String → CloneOutcome
  /-- Returns `response.clone()` of the live response. -/
  | cloned : CloneOutcome
  /-- The catch-path object: a fresh view whose `json()` resolves to the
  failure payload. -/
  | errorView : JsValue → CloneOutcome
  deriving Repr, BEq

/-- The closure `() => response.clone()` captures the `try`-block binding
`response`; invoking it reads that binding.  `none` models the temporal dead
zone: the binding's `const response = await fetchWithAgent(...)` initializer
has not run, so the read throws a `ReferenceError`. -/
def cloneFromVar (responseVar : Option Unit) : CloneOutcome :=
  match responseVar with
  | none => CloneOutcome.thrown "ReferenceError"
  | some _ => CloneOutcome.cloned

/-- The `MockResponse` accessor surface (`types.ts`): each promise-returning
accessor is modelled by the value its promise resolves to. -/
structure MockResponse where
  json : JsValue
  headers : List (String × String)
  ok : Bool
  status : Nat
  statusText : String
  clone : CloneOutcome
  text : String
  deriving Repr, BEq

/-- What the live-call capability (`fetchWithAgent`) does for one request:
either a response arrives (with status, status text, headers, the value
`json()` would resolve to — `none` when the body is not parseable JSON — and
the value `text()` would resolve to), or the fetch itself throws an error
with a name and message. -/
inductive FetchOutcome where
  | resp : Nat → String → List (String × String) → Option JsValue → String → FetchOutcome
  | throwsErr : String → String → FetchOutcome
  deriving Repr, BEq

/-- `Response.ok`: status in the inclusive range 200–299. -/
def respOk (status : Nat) : Bool :=
  200 ≤ status && status ≤ 299

/-- Whether a live outcome ends in `smartFetch`'s catch block (transport
throw, non-ok status, or a JSON body parse failure on an ok response). -/
def outcomeFails : FetchOutcome → Bool
  | FetchOutcome.resp status _ _ jsonBody _ => !respOk status || jsonBody.isNone
  | FetchOutcome.throwsErr _ _ => true

/-- The stored success payload `{ data, error: null, success: true }`. -/
def successPayload (data : JsValue) : JsValue :=
  JsValue.obj [("data", data), ("error", JsValue.null), ("success", JsValue.bool true)]

/-- The failure payload
`{ error: { message, name, stack }, data: null, success: false }`
(stack modelled as `null`, see the header comment). -/
def errorPayload (name message : String) : JsValue :=
  JsValue.obj
    [("error", JsValue.obj
        [("message", JsValue.str message), ("name", JsValue.str name),
         ("stack", JsValue.null)]),
     ("data", JsValue.null), ("success", JsValue.bool false)]

/-- The message of the `Error` thrown for a non-ok status:
`` `HTTP error! status: ${status}, ${statusText}, data: ${JSON.stringify(errorData)}` ``. -/
def httpErrorMessage (status : Nat) (statusText : String) (errorData : JsValue) : String :=
  "HTTP error! status: " ++ toString status ++ ", " ++ statusText ++ ", data: "
    ++ jsStringify errorData

/-- Result of one `smartFetch` call: the returned (`Except.ok`) or thrown
(`Except.error`) value, the in-memory cache afterwards, and the trace of
external effects. -/
structure SmartFetchResult where
  outcome : Except MockResponse MockResponse
  storedAfter : List (String × StoredResponse)
  effects : List FetchEffect
  deriving Repr

/-- The catch block of `smartFetch`: optionally store the failure record
(when both `storeRealResponses` and `storeErrorResponses` hold), then throw a
response-shaped failure whose status is `0` for a `TypeError` and `500`
otherwise. -/
def smartFetchCatch (options : ApiMockerOptions) (st : MockerState)
    (url method : String) (requestBody : Option JsValue)
    (initHeaders : Option (List (String × String))) (now : String)
    (errName errMessage : String) : SmartFetchResult :=
  let payload := errorPayload errName errMessage
  let (stored2, saveEffects) :=
    if options.storeRealResponses && options.storeErrorResponses then
      let key := storageKey url method requestBody
      let record : StoredResponse :=
        { response := payload
          timestamp := now
          headers := []
          request := { url := url, method := method, body := requestBody,
                       headers := initHeaders } }
      let m2 := mapSet st.storedResponses key record
      (m2, saveToStorage options m2)
    else (st.storedResponses, [])
  { outcome := Except.error
      { json := payload
        headers := []
        ok := false
        status := if errName = "TypeError" then 0 else 500
        statusText := errMessage
        clone := CloneOutcome.errorView payload
        text := errMessage }
    storedAfter := stored2
    effects := FetchEffect.liveCall url method :: saveEffects }

/-- The live-call part of `smartFetch` (steps 2–3 of the source after the
cache lookup missed or mocking is off). -/
def smartFetchLive (options : ApiMockerOptions) (st : MockerState)
    (url method : String) (requestBody : Option JsValue)
    (initHeaders : Option (List (String × String)))
    (live : FetchOutcome) (now : String) : SmartFetchResult :=
  match live with
  | FetchOutcome.throwsErr errName errMessage =>
      smartFetchCatch options st url method requestBody initHeaders now errName errMessage
  | FetchOutcome.resp status statusText respHeaders jsonBody textBody =>
      if respOk status then
        match jsonBody with
        | none =>
            -- `await response.json()` throws on an unparseable body
            smartFetchCatch options st url method requestBody initHeaders now
              "SyntaxError" "Unexpected end of JSON input"
        | some data =>
            let (stored2, saveEffects) :=
              if options.storeRealResponses then
                let key := storageKey url method requestBody
                let record : StoredResponse :=
                  { response := successPayload data
                    timestamp := now
                    headers := respHeaders
                    request := { url := url, method := method, body := requestBody,
                                 headers := initHeaders } }
                let m2 := mapSet st.storedResponses key record
                (m2, saveToStorage options m2)
              else (st.storedResponses, [])
            { outcome := Except.ok
                { json := data
                  headers := respHeaders
                  ok := respOk status
                  status := status
                  statusText := statusText
                  clone := cloneFromVar (some ())
                  text := textBody }
              storedAfter := stored2
              effects := FetchEffect.liveCall url method :: saveEffects }
      else
        -- `throw new Error(...)` for a non-ok status; its name is "Error"
        let errorData := jsonBody.getD (JsValue.obj [])
        smartFetchCatch options st url method requestBody initHeaders now
          "Error" (httpErrorMessage status statusText errorData)

/-- `smartFetch(input, init)`.  `input` is the request URL, `initMethod` /
`initBody` / `initHeaders` the fields of `init`; `live` is what the live-call
capability would do for this request, `now` the current timestamp string. -/
def smartFetch (options : ApiMockerOptions) (st : MockerState)
    (input : String) (initMethod : Option String) (initBody : Option JsValue)
    (initHeaders : Option (List (String × String)))
    (live : FetchOutcome) (now : String) : SmartFetchResult :=
  let url := input
  let method := jsOrString initMethod "GET"
  let requestBody := initBody
  if st.isMocking then
    match getStoredResponse st url method requestBody with
    | some storedResponse =>
        { outcome := Except.ok
            { json := storedResponse.response
              headers := storedResponse.headers
              ok := true
              status := 200
              statusText := "OK"
              clone := cloneFromVar none
              text := jsStringify storedResponse.response }
          storedAfter := st.storedResponses
          effects := [] }
    | none => smartFetchLive options st url method requestBody initHeaders live now
  else smartFetchLive options st url method requestBody initHeaders live now

/-- The `ok` flag of a *returned* (not thrown) result. -/
def returnedOk (r : SmartFetchResult) : Option Bool :=
  match r.outcome with
  | Except.ok resp => some resp.ok
  | Except.error _ => none

/-- The status of a *returned* (not thrown) result. -/
def returnedStatus (r : SmartFetchResult) : Option Nat :=
  match r.outcome with
  | Except.ok resp => some resp.status
  | Except.error _ => none

/-- The value `json()` resolves to on a *returned* (not thrown) result. -/
def returnedJson (r : SmartFetchResult) : Option JsValue :=
  match r.outcome with
  | Except.ok resp => some resp.json
  | Except.error _ => none

/-- The status carried by a *thrown* failure value. -/
def thrownStatus (r : SmartFetchResult) : Option Nat :=
  match r.outcome with
  | Except.ok _ => none
  | Except.error e => some e.status

/-- The status text carried by a *thrown* failure value. -/
def thrownStatusText (r : SmartFetchResult) : Option String :=
  match r.outcome with
  | Except.ok _ => none
  | Except.error e => some e.statusText

/-- Helper: on a cache hit with mocking enabled, `smartFetch` returns the
stored-record view and performs no external effect. -/
theorem cacheHitEq (options : ApiMockerOptions) (st : MockerState)
    (input : String) (initMethod : Option String) (initBody : Option JsValue)
    (initHeaders : Option (List (String × String))) (live : FetchOutcome) (now : String)
    (r : StoredResponse)
    (hMock : st.isMocking = true)
    (hHit : getStoredResponse st input (jsOrString initMethod "GET") initBody = some r) :
    smartFetch options st input initMethod initBody initHeaders live now =
      { outcome := Except.ok
          { json := r.response
            headers := r.headers
            ok := true
            status := 200
            statusText := "OK"
            clone := cloneFromVar none
            text := jsStringify r.response }
        storedAfter := st.storedResponses
        effects := [] } := by
  unfold smartFetch
  simp only [hMock, if_true, hHit]

/-- Helper: when mocking is off or the lookup misses, `smartFetch` reduces to
the live-call path. -/
theorem missEq (options : ApiMockerOptions) (st : MockerState)
    (input : String) (initMethod : Option String) (initBody : Option JsValue)
    (initHeaders : Option (List (String × String))) (live : FetchOutcome) (now : String)
    (hGuard : st.isMocking = true →
      getStoredResponse st input (jsOrString initMethod "GET") initBody = none) :
    smartFetch options st input initMethod initBody initHeaders live now =
      smartFetchLive options st input (jsOrString initMethod "GET") initBody initHeaders
        live now := by
  unfold smartFetch
  by_cases h : st.isMocking = true
  · simp only [h, if_true, hGuard h]
  · simp only [Bool.not_eq_true] at h
    simp only [h, Bool.false_eq_true, if_false]

/-- The `name` of the error handled by the catch block for a failing live
outcome. -/
def catchErrName : FetchOutcome → String
  | FetchOutcome.throwsErr n _ => n
  | FetchOutcome.resp s _ _ _ _ => if respOk s then "SyntaxError" else "Error"

/-- The `message` of the error handled by the catch block for a failing live
outcome. -/
def catchErrMessage : FetchOutcome → String
  | FetchOutcome.throwsErr _ m => m
  | FetchOutcome.resp s stx _ jb _ =>
      if respOk s then "Unexpected end of JSON input"
      else httpErrorMessage s stx (jb.getD (JsValue.obj []))

/-- Helper: a failing live outcome lands in the catch block with the
corresponding error name and message. -/
theorem liveFailsCatch (options : ApiMockerOptions) (st : MockerState)
    (url method : String) (initBody : Option JsValue)
    (initHeaders : Option (List (String × String))) (live : FetchOutcome) (now : String)
    (hFail : outcomeFails live = true) :
    smartFetchLive options st url method initBody initHeaders live now =
      smartFetchCatch options st url method initBody initHeaders now
        (catchErrName live) (catchErrMessage live) := by
  cases live with
  | throwsErr n m => rfl
  | resp s stx hs jb tb =>
      by_cases hOk : respOk s = true
      · cases jb with
        | none => simp [smartFetchLive, catchErrName, catchErrMessage, hOk]
        | some d => simp [outcomeFails, hOk] at hFail
      · simp only [Bool.not_eq_true] at hOk
        simp [smartFetchLive, catchErrName, catchErrMessage, hOk]

/-- Helper: the catch block when error storage is not fully enabled — nothing
is stored and nothing is written. -/
theorem catchNoStoreEq (options : ApiMockerOptions) (st : MockerState)
    (url method : String) (initBody : Option JsValue)
    (initHeaders : Option (List (String × String))) (now : String)
    (errName errMessage : String)
    (hGate : (options.storeRealResponses && options.storeErrorResponses) = false) :
    smartFetchCatch options st url method initBody initHeaders now errName errMessage =
      { outcome := Except.error
          { json := errorPayload errName errMessage
            headers := []
            ok := false
            status := if errName = "TypeError" then 0 else 500
            statusText := errMessage
            clone := CloneOutcome.errorView (errorPayload errName errMessage)
            text := errMessage }
        storedAfter := st.storedResponses
        effects := [FetchEffect.liveCall url method] } := by
  unfold smartFetchCatch
  simp only [hGate, Bool.false_eq_true, if_false]

/-- Helper: a successful live call with real-response storage disabled —
the response is returned but nothing is stored and nothing is written. -/
theorem liveSuccessNoStoreEq (options : ApiMockerOptions) (st : MockerState)
    (url method : String) (initBody : Option JsValue)
    (initHeaders : Option (List (String × String))) (now : String)
    (s : Nat) (stx : String) (hs : List (String × String)) (data : JsValue) (tb : String)
    (hReal : options.storeRealResponses = false)
    (hOk : respOk s = true) :
    smartFetchLive options st url method initBody initHeaders
        (FetchOutcome.resp s stx hs (some data) tb) now =
      { outcome := Except.ok
          { json := data
            headers := hs
            ok := respOk s
            status := s
            statusText := stx
            clone := cloneFromVar (some ())
            text := tb }
        storedAfter := st.storedResponses
        effects := [FetchEffect.liveCall url method] } := by
  unfold smartFetchLive
  simp only [hOk, if_true, hReal, Bool.false_eq_true, if_false]

/-- Helper: a successful live call with real-response storage enabled —
the new record is inserted under the fingerprint and written through. -/
theorem liveSuccessStoreEq (options : ApiMockerOptions) (st : MockerState)
    (url method : String) (initBody : Option JsValue)
    (initHeaders : Option (List (String × String))) (now : String)
    (s : Nat) (stx : String) (hs : List (String × String)) (data : JsValue) (tb : String)
    (hReal : options.storeRealResponses = true)
    (hOk : respOk s = true) :
    smartFetchLive options st url method initBody initHeaders
        (FetchOutcome.resp s stx hs (some data) tb) now =
      { outcome := Except.ok
          { json := data
            headers := hs
            ok := respOk s
            status := s
            statusText := stx
            clone := cloneFromVar (some ())
            text := tb }
        storedAfter := mapSet st.storedResponses (storageKey url method initBody)
          { response := successPayload data
            timestamp := now
            headers := hs
            request := { url := url, method := method, body := initBody,
                         headers := initHeaders } }
        effects := [FetchEffect.liveCall url method,
          FetchEffect.persistSave (mapSet st.storedResponses (storageKey url method initBody)
            { response := successPayload data
              timestamp := now
              headers := hs
              request := { url := url, method := method, body := initBody,
                           headers := initHeaders } })] } := by
  unfold smartFetchLive
  simp only [hOk, if_true, hReal, saveToStorage]

/-- Helper: a key just inserted by `mapSet` is found by `mapGet`. -/
theorem mapGet_mapSet_self (m : List (String × StoredResponse)) (k : String)
    (v : StoredResponse) : mapGet (mapSet m k v) k = some v := by
  induction m with
  | nil => simp [mapSet, mapGet]
  | cons p rest ih =>
      obtain ⟨k', v'⟩ := p
      by_cases h : k' = k
      · simp [mapSet, mapGet, h]
      · simp [mapSet, mapGet, h, ih]

/-- Helper: the thrown value built by the catch block, independent of the
storage gating. -/
theorem catchOutcomeEq (options : ApiMockerOptions) (st : MockerState)
    (url method : String) (initBody : Option JsValue)
    (initHeaders : Option (List (String × String))) (now : String)
    (errName errMessage : String) :
    (smartFetchCatch options st url method initBody initHeaders now errName
        errMessage).outcome =
      Except.error
        { json := errorPayload errName errMessage
          headers := []
          ok := false
          status := if errName = "TypeError" then 0 else 500
          statusText := errMessage
          clone := CloneOutcome.errorView (errorPayload errName errMessage)
          text := errMessage } := by
  unfold smartFetchCatch
  by_cases h : (options.storeRealResponses && options.storeErrorResponses) = true <;>
    simp [h]

/-- Sample stored success record used by concrete instantiations. -/
def sampleSuccessRecord : StoredResponse :=
  { response := successPayload (JsValue.obj [("a", JsValue.num 1)])
    timestamp := "2025-01-15T10:30:00.000Z"
    headers := [("content-type", "application/json")]
    request := { url := "https://x/y", method := "GET", body := none, headers := none } }

/-- A state holding `sampleSuccessRecord` under its fingerprint with mocking
enabled. -/
def sampleHitState : MockerState :=
  { isMocking := true
    mocks := []
    storedResponses := [(storageKey "https://x/y" "GET" none, sampleSuccessRecord)] }

/-- Options with real-response storage on and error storage off. -/
def sampleOptions : ApiMockerOptions :=
  { storeRealResponses := true
    storeErrorResponses := false
    defaultDelay := 1000
    isMocking := true }

/-- C1: with mocking enabled and a stored record under the request's
fingerprint, `smartFetch` performs no external effect at all (in particular it
never invokes the live-call capability) and the returned response's `json()`
is exactly the stored record's payload. -/
theorem cachePrecedence (options : ApiMockerOptions) (st : MockerState)
    (input : String) (initMethod : Option String) (initBody : Option JsValue)
    (initHeaders : Option (List (String × String))) (live : FetchOutcome) (now : String)
    (r : StoredResponse)
    (hMock : st.isMocking = true)
    (hHit : getStoredResponse st input (jsOrString initMethod "GET") initBody = some r) :
    (smartFetch options st input initMethod initBody initHeaders live now).effects = [] ∧
    (smartFetch options st input initMethod initBody initHeaders live
        now).outcome.map MockResponse.json = Except.ok r.response := by
  rw [cacheHitEq options st input initMethod initBody initHeaders live now r hMock hHit]
  exact ⟨rfl, rfl⟩

/-- C1 witness: a concrete cache hit — no effects, payload replayed. -/
theorem cachePrecedence_witness :
    sampleHitState.isMocking = true ∧
    getStoredResponse sampleHitState "https://x/y" (jsOrString none "GET") none =
      some sampleSuccessRecord ∧
    ((smartFetch sampleOptions sampleHitState "https://x/y" none none none
        (FetchOutcome.throwsErr "TypeError" "fetch failed") "t1").effects = [] ∧
     (smartFetch sampleOptions sampleHitState "https://x/y" none none none
        (FetchOutcome.throwsErr "TypeError" "fetch failed")
        "t1").outcome.map MockResponse.json = Except.ok sampleSuccessRecord.response) :=
  ⟨rfl, rfl,
   cachePrecedence sampleOptions sampleHitState "https://x/y" none none none
     (FetchOutcome.throwsErr "TypeError" "fetch failed") "t1" sampleSuccessRecord rfl rfl⟩

/-- A stored record whose outcome is a failure (`success: false`). -/
def sampleFailureRecord : StoredResponse :=
  { response := errorPayload "Error" (httpErrorMessage 404 "Not Found" (JsValue.obj []))
    timestamp := "2025-01-15T10:31:00.000Z"
    headers := []
    request := { url := "https://x/err", method := "GET", body := none, headers := none } }

/-- A state holding `sampleFailureRecord` under its fingerprint with mocking
enabled. -/
def sampleFailureState : MockerState :=
  { isMocking := true
    mocks := []
    storedResponses := [(storageKey "https://x/err" "GET" none, sampleFailureRecord)] }

/-- Options with both real-response storage and error-response storage on. -/
def errorStorageOptions : ApiMockerOptions :=
  { storeRealResponses := true
    storeErrorResponses := true
    defaultDelay := 1000
    isMocking := true }

/-- C2 counterexample: error-response storage is enabled and the stored record
under the fingerprint is a failure (`success: false`), yet the cache hit is
*returned* as a success with `ok = true` and status 200 — it does not replay
as a failure. -/
theorem storedFailureNotReplayed_counterexample :
    returnedOk (smartFetch errorStorageOptions sampleFailureState "https://x/err" none none
      none (FetchOutcome.throwsErr "TypeError" "fetch failed") "t2") = some true ∧
    returnedStatus (smartFetch errorStorageOptions sampleFailureState "https://x/err" none
      none none (FetchOutcome.throwsErr "TypeError" "fetch failed") "t2") = some 200 :=
  ⟨rfl, rfl⟩

/-- C2 (amended): every cache hit is reported as a success — returned with
`ok = true` and status 200 and the stored payload as its `json()` — whatever
the error-storage setting (quantified by `b`) and whatever the stored record's
outcome; stored failure records never replay as failures. -/
theorem cacheHitAlwaysSuccess (options : ApiMockerOptions) (st : MockerState)
    (input : String) (initMethod : Option String) (initBody : Option JsValue)
    (initHeaders : Option (List (String × String))) (live : FetchOutcome) (now : String)
    (r : StoredResponse) (b : Bool)
    (hMock : st.isMocking = true)
    (hHit : getStoredResponse st input (jsOrString initMethod "GET") initBody = some r) :
    returnedOk (smartFetch { options with storeErrorResponses := b } st input initMethod
      initBody initHeaders live now) = some true ∧
    returnedStatus (smartFetch { options with storeErrorResponses := b } st input initMethod
      initBody initHeaders live now) = some 200 ∧
    returnedJson (smartFetch { options with storeErrorResponses := b } st input initMethod
      initBody initHeaders live now) = some r.response := by
  rw [cacheHitEq { options with storeErrorResponses := b } st input initMethod initBody
    initHeaders live now r hMock hHit]
  exact ⟨rfl, rfl, rfl⟩

/-- C2 witness: the amended statement at a stored *failure* record with error
storage enabled. -/
theorem cacheHitAlwaysSuccess_witness :
    sampleFailureState.isMocking = true ∧
    getStoredResponse sampleFailureState "https://x/err" (jsOrString none "GET") none =
      some sampleFailureRecord ∧
    (returnedOk (smartFetch { errorStorageOptions with storeErrorResponses := true }
        sampleFailureState "https://x/err" none none none
        (FetchOutcome.throwsErr "TypeError" "fetch failed") "t2") = some true ∧
     returnedStatus (smartFetch { errorStorageOptions with storeErrorResponses := true }
        sampleFailureState "https://x/err" none none none
        (FetchOutcome.throwsErr "TypeError" "fetch failed") "t2") = some 200 ∧
     returnedJson (smartFetch { errorStorageOptions with storeErrorResponses := true }
        sampleFailureState "https://x/err" none none none
        (FetchOutcome.throwsErr "TypeError" "fetch failed") "t2") =
       some sampleFailureRecord.response) :=
  ⟨rfl, rfl,
   cacheHitAlwaysSuccess errorStorageOptions sampleFailureState "https://x/err" none none
     none (FetchOutcome.throwsErr "TypeError" "fetch failed") "t2" sampleFailureRecord true
     rfl rfl⟩

/-- C10: on every cache-hit path the returned object's `clone` closure reads
the never-initialized `response` variable, so invoking it throws a
`ReferenceError`; the remaining accessors (`json`, `text`, `headers`, `ok`,
`status`) are plain values built from the stored record. -/
theorem cacheHitCloneThrows (options : ApiMockerOptions) (st : MockerState)
    (input : String) (initMethod : Option String) (initBody : Option JsValue)
    (initHeaders : Option (List (String × String))) (live : FetchOutcome) (now : String)
    (r : StoredResponse)
    (hMock : st.isMocking = true)
    (hHit : getStoredResponse st input (jsOrString initMethod "GET") initBody = some r) :
    (smartFetch options st input initMethod initBody initHeaders live now).outcome =
      Except.ok
        { json := r.response
          headers := r.headers
          ok := true
          status := 200
          statusText := "OK"
          clone := CloneOutcome.thrown "ReferenceError"
          text := jsStringify r.response } := by
  rw [cacheHitEq options st input initMethod initBody initHeaders live now r hMock hHit]
  rfl

/-- C10 witness: the clone-throwing cache-hit view at a concrete stored
record. -/
theorem cacheHitCloneThrows_witness :
    sampleHitState.isMocking = true ∧
    getStoredResponse sampleHitState "https://x/y" (jsOrString none "GET") none =
      some sampleSuccessRecord ∧
    (smartFetch sampleOptions sampleHitState "https://x/y" none none none
        (FetchOutcome.throwsErr "TypeError" "fetch failed") "t1").outcome =
      Except.ok
        { json := sampleSuccessRecord.response
          headers := sampleSuccessRecord.headers
          ok := true
          status := 200
          statusText := "OK"
          clone := CloneOutcome.thrown "ReferenceError"
          text := jsStringify sampleSuccessRecord.response } :=
  ⟨rfl, rfl,
   cacheHitCloneThrows sampleOptions sampleHitState "https://x/y" none none none
     (FetchOutcome.throwsErr "TypeError" "fetch failed") "t1" sampleSuccessRecord rfl rfl⟩

/-- Options with mocking on and all storage off. -/
def pingMockOptions : ApiMockerOptions :=
  { storeRealResponses := false
    storeErrorResponses := false
    defaultDelay := 1000
    isMocking := true }

/-- The static mock of Scenario C: `(GET, "/ping")` returning `{pong:true}`
with delay 50ms. -/
def pingMockConfig : MockConfig :=
  { endpoint := "/ping"
    method := "GET"
    response := JsValue.obj [("pong", JsValue.bool true)]
    delay := some 50 }

/-- The state after registering `pingMockConfig` (mocking enabled, response
cache empty). -/
def pingState : MockerState :=
  { isMocking := true
    mocks := addMock pingMockOptions [] pingMockConfig
    storedResponses := [] }

/-- C3: the mock registry is registered but never served — after `addMock` has
recorded the `(GET, "/ping")` entry, `smartFetch` on that endpoint still
invokes the live-call capability (here failing with a transport error, since
nothing serves `/ping`), and in general `smartFetch` is invariant under the
entire `mocks` list: no code path consults the static mock registry, and no
delay is applied anywhere. -/
theorem staticMocksNeverServed :
    pingState.mocks = [pingMockConfig] ∧
    (smartFetch pingMockOptions pingState "/ping" none none none
        (FetchOutcome.throwsErr "TypeError" "fetch failed") "t3").effects =
      [FetchEffect.liveCall "/ping" "GET"] ∧
    thrownStatus (smartFetch pingMockOptions pingState "/ping" none none none
        (FetchOutcome.throwsErr "TypeError" "fetch failed") "t3") = some 0 ∧
    (∀ (options : ApiMockerOptions) (st : MockerState) (ms : List MockConfig)
       (input : String) (initMethod : Option String) (initBody : Option JsValue)
       (initHeaders : Option (List (String × String))) (live : FetchOutcome) (now : String),
       smartFetch options { st with mocks := ms } input initMethod initBody initHeaders
          live now =
         smartFetch options st input initMethod initBody initHeaders live now) :=
  ⟨rfl, rfl, rfl, fun _ _ _ _ _ _ _ _ _ => rfl⟩

/-- Options with all storage off and mocking off. -/
def noStoreOptions : ApiMockerOptions :=
  { storeRealResponses := false
    storeErrorResponses := false
    defaultDelay := 1000
    isMocking := false }

/-- A nonempty cache with mocking off. -/
def preloadedState : MockerState :=
  { isMocking := false
    mocks := []
    storedResponses := [(storageKey "https://x/y" "GET" none, sampleSuccessRecord)] }

/-- C4 counterexample: with real-response storage disabled,
`clearStoredResponses` performs *no* persistence-adapter operation at all — in
particular it does not call the adapter's `clear()` — refuting "calls the
Persistence Adapter's clear() operation … for every configuration". -/
theorem clearNeverCallsAdapterClear_counterexample :
    (clearStoredResponses noStoreOptions preloadedState).2 = [] := rfl

/-- C4 (amended): `clearStoredResponses` empties the in-memory mapping in
every configuration, but it never invokes the adapter's `clear()`: when
`storeRealResponses` is enabled it instead writes the now-empty mapping
through `save()`, and when disabled it performs no persistence operation at
all. -/
theorem clearStoredResponses_spec (options : ApiMockerOptions) (st : MockerState) :
    (clearStoredResponses options st).1.storedResponses = [] ∧
    (clearStoredResponses options st).2 =
      (if options.storeRealResponses then [FetchEffect.persistSave []] else []) ∧
    FetchEffect.persistClear ∉ (clearStoredResponses options st).2 := by
  refine ⟨rfl, rfl, ?_⟩
  by_cases h : options.storeRealResponses = true <;>
    simp [clearStoredResponses, saveToStorage, h]

/-- An empty mocker state with mocking off. -/
def emptyState : MockerState :=
  { isMocking := false
    mocks := []
    storedResponses := [] }

/-- A successful live outcome carrying the payload `{a:1}`. -/
def sampleLiveSuccess : FetchOutcome :=
  FetchOutcome.resp 200 "OK" [("content-type", "application/json")]
    (some (JsValue.obj [("a", JsValue.num 1)])) ""

/-- C5 counterexample: with real-response storage disabled, a successful live
call inserts *nothing* into the in-memory cache — the cache stays empty and a
later lookup under the same fingerprint misses — refuting "still inserted into
the in-memory cache and held there". -/
theorem noStoreNotHeldInMemory_counterexample :
    (smartFetch noStoreOptions emptyState "https://x/y" none none none sampleLiveSuccess
      "t4").storedAfter = [] ∧
    getStoredResponse
      { emptyState with
          storedResponses := (smartFetch noStoreOptions emptyState "https://x/y" none none
            none sampleLiveSuccess "t4").storedAfter }
      "https://x/y" "GET" none = none :=
  ⟨rfl, rfl⟩

/-- C5 (amended): with real-response storage disabled, a successful live call
is not written through to the Persistence Adapter *and* is not inserted into
the in-memory cache either: the cache is left exactly as it was (so a later
lookup finds only what was already there) and the only external effect is the
live call itself. -/
theorem noStoreKeepsNothing (options : ApiMockerOptions) (st : MockerState)
    (input : String) (initMethod : Option String) (initBody : Option JsValue)
    (initHeaders : Option (List (String × String))) (now : String)
    (s : Nat) (stx : String) (hs : List (String × String)) (data : JsValue) (tb : String)
    (hReal : options.storeRealResponses = false)
    (hGuard : st.isMocking = true →
      getStoredResponse st input (jsOrString initMethod "GET") initBody = none)
    (hOk : respOk s = true) :
    (smartFetch options st input initMethod initBody initHeaders
        (FetchOutcome.resp s stx hs (some data) tb) now).storedAfter =
      st.storedResponses ∧
    (smartFetch options st input initMethod initBody initHeaders
        (FetchOutcome.resp s stx hs (some data) tb) now).effects =
      [FetchEffect.liveCall input (jsOrString initMethod "GET")] := by
  rw [missEq options st input initMethod initBody initHeaders
    (FetchOutcome.resp s stx hs (some data) tb) now hGuard]
  rw [liveSuccessNoStoreEq options st input (jsOrString initMethod "GET") initBody
    initHeaders now s stx hs data tb hReal hOk]
  exact ⟨rfl, rfl⟩

/-- C5 witness: the amended statement at a concrete successful live call with
storage disabled. -/
theorem noStoreKeepsNothing_witness :
    noStoreOptions.storeRealResponses = false ∧
    respOk 200 = true ∧
    ((smartFetch noStoreOptions emptyState "https://x/y" none none none
        (FetchOutcome.resp 200 "OK" [("content-type", "application/json")]
          (some (JsValue.obj [("a", JsValue.num 1)])) "") "t4").storedAfter =
      emptyState.storedResponses ∧
     (smartFetch noStoreOptions emptyState "https://x/y" none none none
        (FetchOutcome.resp 200 "OK" [("content-type", "application/json")]
          (some (JsValue.obj [("a", JsValue.num 1)])) "") "t4").effects =
      [FetchEffect.liveCall "https://x/y" (jsOrString none "GET")]) :=
  ⟨rfl, rfl,
   noStoreKeepsNothing noStoreOptions emptyState "https://x/y" none none none "t4" 200 "OK"
     [("content-type", "application/json")] (JsValue.obj [("a", JsValue.num 1)]) "" rfl
     (fun h => by cases h) rfl⟩

/-- The live outcome of an HTTP 404 with an empty JSON error body. -/
def http404 : FetchOutcome :=
  FetchOutcome.resp 404 "Not Found" [] (some (JsValue.obj [])) ""

/-- C6 counterexample: a live call answered with HTTP status 404 surfaces a
thrown failure whose `status` is 500, not the actual 404 — refuting "the
actual non-success HTTP status code". -/
theorem httpFailureStatusNotPreserved_counterexample :
    thrownStatus (smartFetch noStoreOptions emptyState "https://x/y" none none none http404
      "t5") = some 500 := rfl

/-- C6 (amended): a transport-level failure (a thrown `TypeError`) surfaces a
failure with status 0, but every other live-call failure — in particular an
HTTP-status failure with any actual status code — surfaces status 500; the
actual status code and body appear only inside the failure's message
(`statusText`), via `httpErrorMessage`. -/
theorem failureStatusMapping (options : ApiMockerOptions) (st : MockerState)
    (input : String) (initMethod : Option String) (initBody : Option JsValue)
    (initHeaders : Option (List (String × String))) (now : String) (msg : String)
    (s : Nat) (stx : String) (hs : List (String × String)) (jb : Option JsValue)
    (tb : String)
    (hGuard : st.isMocking = true →
      getStoredResponse st input (jsOrString initMethod "GET") initBody = none)
    (hNotOk : respOk s = false) :
    thrownStatus (smartFetch options st input initMethod initBody initHeaders
      (FetchOutcome.throwsErr "TypeError" msg) now) = some 0 ∧
    thrownStatus (smartFetch options st input initMethod initBody initHeaders
      (FetchOutcome.resp s stx hs jb tb) now) = some 500 ∧
    thrownStatusText (smartFetch options st input initMethod initBody initHeaders
      (FetchOutcome.resp s stx hs jb tb) now) =
      some (httpErrorMessage s stx (jb.getD (JsValue.obj []))) := by
  have hFail : outcomeFails (FetchOutcome.resp s stx hs jb tb) = true := by
    simp [outcomeFails, hNotOk]
  rw [missEq options st input initMethod initBody initHeaders
    (FetchOutcome.throwsErr "TypeError" msg) now hGuard]
  rw [missEq options st input initMethod initBody initHeaders
    (FetchOutcome.resp s stx hs jb tb) now hGuard]
  rw [liveFailsCatch options st input (jsOrString initMethod "GET") initBody initHeaders
    (FetchOutcome.resp s stx hs jb tb) now hFail]
  have hName : catchErrName (FetchOutcome.resp s stx hs jb tb) = "Error" := by
    simp [catchErrName, hNotOk]
  have hMsg : catchErrMessage (FetchOutcome.resp s stx hs jb tb) =
      httpErrorMessage s stx (jb.getD (JsValue.obj [])) := by
    simp [catchErrMessage, hNotOk]
  rw [hName, hMsg]
  refine ⟨?_, ?_, ?_⟩
  · have h1 := catchOutcomeEq options st input (jsOrString initMethod "GET") initBody
      initHeaders now "TypeError" msg
    simp only [smartFetchLive, thrownStatus, h1, if_pos rfl]
    simp
  · have h2 := catchOutcomeEq options st input (jsOrString initMethod "GET") initBody
      initHeaders now "Error" (httpErrorMessage s stx (jb.getD (JsValue.obj [])))
    simp only [thrownStatus, h2]
    rw [if_neg (by decide : ¬("Error" = "TypeError"))]
  · have h3 := catchOutcomeEq options st input (jsOrString initMethod "GET") initBody
      initHeaders now "Error" (httpErrorMessage s stx (jb.getD (JsValue.obj [])))
    simp only [thrownStatusText, h3]

/-- C6 witness: the amended status mapping at a concrete transport failure and
a concrete HTTP 404. -/
theorem failureStatusMapping_witness :
    respOk 404 = false ∧
    (thrownStatus (smartFetch noStoreOptions emptyState "https://x/y" none none none
      (FetchOutcome.throwsErr "TypeError" "fetch failed") "t5") = some 0 ∧
     thrownStatus (smartFetch noStoreOptions emptyState "https://x/y" none none none
      (FetchOutcome.resp 404 "Not Found" [] (some (JsValue.obj [])) "") "t5") = some 500 ∧
     thrownStatusText (smartFetch noStoreOptions emptyState "https://x/y" none none none
      (FetchOutcome.resp 404 "Not Found" [] (some (JsValue.obj [])) "") "t5") =
       some (httpErrorMessage 404 "Not Found"
         ((some (JsValue.obj [])).getD (JsValue.obj [])))) :=
  ⟨rfl,
   failureStatusMapping noStoreOptions emptyState "https://x/y" none none none "t5"
     "fetch failed" 404 "Not Found" [] (some (JsValue.obj [])) ""
     (fun h => by cases h) rfl⟩

/-- C7: with `storeRealResponses = true` and `storeErrorResponses = false`,
a failing live call leaves the in-memory cache untouched and performs no
persistence write (the only effect is the live call), while a successful live
call inserts a record under the request's fingerprint and writes it through. -/
theorem errorGating (options : ApiMockerOptions) (st : MockerState)
    (input : String) (initMethod : Option String) (initBody : Option JsValue)
    (initHeaders : Option (List (String × String))) (live : FetchOutcome) (now : String)
    (hReal : options.storeRealResponses = true)
    (hErr : options.storeErrorResponses = false)
    (hGuard : st.isMocking = true →
      getStoredResponse st input (jsOrString initMethod "GET") initBody = none) :
    (outcomeFails live = true →
      (smartFetch options st input initMethod initBody initHeaders live now).storedAfter =
        st.storedResponses ∧
      (smartFetch options st input initMethod initBody initHeaders live now).effects =
        [FetchEffect.liveCall input (jsOrString initMethod "GET")]) ∧
    (outcomeFails live = false →
      (mapGet (smartFetch options st input initMethod initBody initHeaders live
          now).storedAfter
        (storageKey input (jsOrString initMethod "GET") initBody)).isSome = true ∧
      FetchEffect.persistSave (smartFetch options st input initMethod initBody initHeaders
          live now).storedAfter ∈
        (smartFetch options st input initMethod initBody initHeaders live now).effects) := by
  rw [missEq options st input initMethod initBody initHeaders live now hGuard]
  constructor
  · intro hFail
    rw [liveFailsCatch options st input (jsOrString initMethod "GET") initBody initHeaders
      live now hFail]
    rw [catchNoStoreEq options st input (jsOrString initMethod "GET") initBody initHeaders
      now (catchErrName live) (catchErrMessage live) (by simp [hReal, hErr])]
    exact ⟨rfl, rfl⟩
  · intro hOk
    cases live with
    | throwsErr n m => simp [outcomeFails] at hOk
    | resp s stx hs jb tb =>
        simp only [outcomeFails, Bool.or_eq_false_iff, Bool.not_eq_false'] at hOk
        obtain ⟨hs', hjb⟩ := hOk
        cases jb with
        | none => simp [Option.isNone] at hjb
        | some data =>
            rw [liveSuccessStoreEq options st input (jsOrString initMethod "GET") initBody
              initHeaders now s stx hs data tb hReal hs']
            refine ⟨?_, ?_⟩
            · simp [mapGet_mapSet_self]
            · simp

/-- C7 witness: the error-gating statement at a concrete request; the concrete
live outcome is a failing HTTP 404, where the failing conjunct applies. -/
theorem errorGating_witness :
    sampleOptions.storeRealResponses = true ∧
    sampleOptions.storeErrorResponses = false ∧
    outcomeFails http404 = true ∧
    ((outcomeFails http404 = true →
      (smartFetch sampleOptions emptyState "https://x/y" none none none http404
          "t6").storedAfter = emptyState.storedResponses ∧
      (smartFetch sampleOptions emptyState "https://x/y" none none none http404
          "t6").effects = [FetchEffect.liveCall "https://x/y" (jsOrString none "GET")]) ∧
     (outcomeFails http404 = false →
      (mapGet (smartFetch sampleOptions emptyState "https://x/y" none none none http404
          "t6").storedAfter
        (storageKey "https://x/y" (jsOrString none "GET") none)).isSome = true ∧
      FetchEffect.persistSave (smartFetch sampleOptions emptyState "https://x/y" none none
          none http404 "t6").storedAfter ∈
        (smartFetch sampleOptions emptyState "https://x/y" none none none http404
          "t6").effects)) :=
  ⟨rfl, rfl, rfl,
   errorGating sampleOptions emptyState "https://x/y" none none none http404 "t6" rfl rfl
     (fun h => by cases h)⟩

/-- C8: with `storeRealResponses = false`, a successful live call's only
external effect is the live call itself; replaying the effect trace against
any durable-store contents leaves them unchanged. -/
theorem writeThroughGating (options : ApiMockerOptions) (st : MockerState)
    (input : String) (initMethod : Option String) (initBody : Option JsValue)
    (initHeaders : Option (List (String × String))) (now : String)
    (s : Nat) (stx : String) (hs : List (String × String)) (data : JsValue) (tb : String)
    (hReal : options.storeRealResponses = false)
    (hGuard : st.isMocking = true →
      getStoredResponse st input (jsOrString initMethod "GET") initBody = none)
    (hOk : respOk s = true) :
    (smartFetch options st input initMethod initBody initHeaders
        (FetchOutcome.resp s stx hs (some data) tb) now).effects =
      [FetchEffect.liveCall input (jsOrString initMethod "GET")] ∧
    ∀ store : List (String × StoredResponse),
      applyEffects store (smartFetch options st input initMethod initBody initHeaders
        (FetchOutcome.resp s stx hs (some data) tb) now).effects = store := by
  rw [missEq options st input initMethod initBody initHeaders
    (FetchOutcome.resp s stx hs (some data) tb) now hGuard]
  rw [liveSuccessNoStoreEq options st input (jsOrString initMethod "GET") initBody
    initHeaders now s stx hs data tb hReal hOk]
  exact ⟨rfl, fun _ => rfl⟩

/-- C8 witness: the write-through gating statement at a concrete successful
live call with storage disabled. -/
theorem writeThroughGating_witness :
    noStoreOptions.storeRealResponses = false ∧
    respOk 200 = true ∧
    ((smartFetch noStoreOptions emptyState "https://x/y" none none none
        (FetchOutcome.resp 200 "OK" [("content-type", "application/json")]
          (some (JsValue.obj [("a", JsValue.num 1)])) "") "t7").effects =
      [FetchEffect.liveCall "https://x/y" (jsOrString none "GET")] ∧
     ∀ store : List (String × StoredResponse),
       applyEffects store (smartFetch noStoreOptions emptyState "https://x/y" none none none
        (FetchOutcome.resp 200 "OK" [("content-type", "application/json")]
          (some (JsValue.obj [("a", JsValue.num 1)])) "") "t7").effects = store) :=
  ⟨rfl, rfl,
   writeThroughGating noStoreOptions emptyState "https://x/y" none none none "t7" 200 "OK"
     [("content-type", "application/json")] (JsValue.obj [("a", JsValue.num 1)]) "" rfl
     (fun h => by cases h) rfl⟩

/-- C9: registering a second mock configuration for the same
`(endpoint, method)` pair leaves the registry exactly as it was after the
first registration — first registration wins and the duplicate is silently
ignored, whatever the payloads, delays, differing options, or prior registry
contents. -/
theorem addMockFirstWins (o1 o2 : ApiMockerOptions) (mocks : List MockConfig)
    (c1 c2 : MockConfig)
    (hEndpoint : c2.endpoint = c1.endpoint) (hMethod : c2.method = c1.method) :
    addMock o2 (addMock o1 mocks c1) c2 = addMock o1 mocks c1 := by
  have hpred : (fun (m : MockConfig) => m.endpoint == c2.endpoint && m.method == c2.method) =
      (fun (m : MockConfig) => m.endpoint == c1.endpoint && m.method == c1.method) := by
    funext m
    rw [hEndpoint, hMethod]
  unfold addMock
  simp only [hpred]
  by_cases h : mocks.any
      (fun m => m.endpoint == c1.endpoint && m.method == c1.method) = true
  · simp [h]
  · simp only [Bool.not_eq_true] at h
    simp only [h, Bool.false_eq_true, if_false]
    have hafter : ((mocks ++ [{ c1 with delay := some (c1.delay.getD o1.defaultDelay) }]).any
        (fun m => m.endpoint == c1.endpoint && m.method == c1.method)) = true := by
      simp [List.any_append]
    simp [hafter]

/-- C9 witness: a duplicate registration for `(GET, "/ping")` with a different
payload and delay is ignored. -/
theorem addMockFirstWins_witness :
    MockConfig.endpoint
        { endpoint := "/ping", method := "GET",
          response := JsValue.obj [("pong", JsValue.bool false)], delay := none } =
      pingMockConfig.endpoint ∧
    MockConfig.method
        { endpoint := "/ping", method := "GET",
          response := JsValue.obj [("pong", JsValue.bool false)], delay := none } =
      pingMockConfig.method ∧
    addMock sampleOptions
        (addMock pingMockOptions [] pingMockConfig)
        { endpoint := "/ping", method := "GET",
          response := JsValue.obj [("pong", JsValue.bool false)], delay := none } =
      addMock pingMockOptions [] pingMockConfig :=
  ⟨rfl, rfl,
   addMockFirstWins pingMockOptions sampleOptions [] pingMockConfig
     { endpoint := "/ping", method := "GET",
       response := JsValue.obj [("pong", JsValue.bool false)], delay := none } rfl rfl⟩

end ApiMocker

